import Mathlib

/-!
Shallow embedding of the interaction core of the conrod widget toolkit
(src/src/button.rs and src/src/drop_down_list.rs), together with proofs
about its two per-widget finite state machines, the hit-testing geometry,
the callback edges, the rendering fallback and the identity-indexed
widget state store.

Conventions of the embedding:
- `f64` coordinates are modelled as rationals (`ℚ`), so all geometric
  predicates stay decidable and executable.
- Rust `uint` is `Nat`.
- A Rust vector index expression that can panic (out-of-bounds) is
  modelled with `Option`: `none` marks the out-of-bounds access.
- Each Rust module becomes a Lean namespace of the same name; functions
  keep their source names.
-/

/-- 2D point, source type `Point = [f64, ..2]`; coordinates as rationals. -/
abbrev Point : Type := ℚ × ℚ

/-- Width and height, source type `Dimensions = [f64, ..2]`. -/
abbrev Dimensions : Type := ℚ × ℚ

namespace mouse

/-- State of one mouse button, source `mouse::ButtonState`. -/
inductive ButtonState : Type
  | Up : ButtonState
  | Down : ButtonState
deriving DecidableEq

/-- Modelled from the spec: the PointerSnapshot of §3 — cursor position and
the tracked (left) button's binary Down/Up state.  The `mouse` module is not
under src/; only the `pos` and `left` fields are read by the embedded code. -/
structure Mouse : Type where
  pos : Point
  left : ButtonState

end mouse

namespace rectangle

/-- Visual state of a drawn rectangle, source `rectangle::State`
(the rectangle module is not under src/; the variant set is fixed by the
`as_rectangle_state` / `as_rect_state` translations in the two source files
and by spec §2: Normal/Highlighted/Clicked). -/
inductive State : Type
  | Normal : State
  | Highlighted : State
  | Clicked : State
deriving DecidableEq

/-- Modelled from the spec: §4.1 `isOver(position, pointerPos, dims)` —
axis-aligned rectangle containment, the one primitive shared by the button
and the list.  The spec leaves inclusive/exclusive bounds to the
implementer but requires (§7a) that zero-width or zero-height rectangles
are never hit, so half-open bounds `[pos, pos + dim)` are used.
`rectangle::is_over` itself is not under src/. -/
def is_over (pos : Point) (mouse_pos : Point) (dim : Dimensions) : Bool :=
  decide (pos.1 ≤ mouse_pos.1 ∧ mouse_pos.1 < pos.1 + dim.1 ∧
          pos.2 ≤ mouse_pos.2 ∧ mouse_pos.2 < pos.2 + dim.2)

end rectangle

namespace button

open mouse (Mouse ButtonState)

/-- State of the Button widget, source src/src/button.rs lines 15-20. -/
inductive State : Type
  | Normal : State
  | Highlighted : State
  | Clicked : State
deriving DecidableEq

/-- Source lines 23-30: the associated rectangle state. -/
def State.as_rectangle_state : State → rectangle.State
  | State.Normal => rectangle.State.Normal
  | State.Highlighted => rectangle.State.Highlighted
  | State.Clicked => rectangle.State.Clicked

/-- Source lines 36-48: the button transition function.  The match arms are
kept in source order; Lean's `match`, like Rust's, takes the first arm that
fits, and totality is enforced by the compiler exactly as in the source. -/
def get_new_state (is_over : Bool) (prev : State) (mouse : Mouse) : State :=
  match is_over, prev, mouse.left with
  | true, State.Normal, ButtonState.Down => State.Normal
  | true, _, ButtonState.Down => State.Clicked
  | true, _, ButtonState.Up => State.Highlighted
  | false, State.Clicked, ButtonState.Down => State.Clicked
  | _, _, _ => State.Normal

/-- Source lines 107-111 of `ButtonContext::draw`: the callback runs exactly
when `(is_over, state, new_state)` matches `(true, Clicked, Highlighted)`. -/
def callback_fired (is_over : Bool) (prev : State) (new_state : State) : Bool :=
  match is_over, prev, new_state with
  | true, State.Clicked, State.Highlighted => true
  | _, _, _ => false

/-- One frame of `ButtonContext::draw` at the transition-engine level: the
frame's input is the hit-test outcome and the left button, the output is the
new stored state and whether the callback ran (source lines 101-111, 139). -/
def button_step (is_over : Bool) (left : mouse.ButtonState) (st : State) :
    State × Bool :=
  let new_state := get_new_state is_over st (Mouse.mk ((0 : ℚ), (0 : ℚ)) left)
  (new_state, callback_fired is_over st new_state)

/-- Run consecutive frames; returns the per-frame callback flags and the
final stored state. -/
def button_run (st : State) : List (Bool × ButtonState) → List Bool × State
  | [] => ([], st)
  | (o, b) :: rest =>
    let s := button_step o b st
    let r := button_run s.1 rest
    (s.2 :: r.1, r.2)

end button

/-- The ordered transition table of spec §4.2 written as the spec gives it:
five rows, earlier rows taking precedence (first match wins), the last row
the catch-all to Normal.  This definition follows the spec's words, to be
compared with `button.get_new_state`, which is translated from the source. -/
def button_table_spec (is_over : Bool) (prev : button.State)
    (left : mouse.ButtonState) : button.State :=
  if is_over = true ∧ prev = button.State.Normal ∧ left = mouse.ButtonState.Down then
    button.State.Normal
  else if is_over = true ∧ left = mouse.ButtonState.Down then
    button.State.Clicked
  else if is_over = true ∧ left = mouse.ButtonState.Up then
    button.State.Highlighted
  else if is_over = false ∧ prev = button.State.Clicked ∧ left = mouse.ButtonState.Down then
    button.State.Clicked
  else
    button.State.Normal

/-- C1: the button transition function is total (it is a total Lean function
obtained from the source's exhaustive match) and agrees with the spec's
ordered, first-match-wins transition table on every input triple. -/
theorem C1_button_matches_spec_table :
    ∀ (is_over : Bool) (prev : button.State) (pos : Point) (left : mouse.ButtonState),
      button.get_new_state is_over prev (mouse.Mouse.mk pos left) =
        button_table_spec is_over prev left := by
  intro o p pos b
  cases o <;> cases p <;> cases b <;> rfl

namespace drop_down_list

open mouse (Mouse ButtonState)

/-- Tuple / callback params, source lines 15-16 of src/src/drop_down_list.rs. -/
abbrev Idx : Type := Nat

/-- Item count, source line 16. -/
abbrev Len : Type := Nat

/-- DrawState of the DropDownList widget, source lines 26-31. -/
inductive DrawState : Type
  | Normal : DrawState
  | Highlighted : Idx → Len → DrawState
  | Clicked : Idx → Len → DrawState
deriving DecidableEq

/-- State of the menu, source lines 19-23. -/
inductive State : Type
  | Closed : DrawState → State
  | Open : DrawState → State
deriving DecidableEq

/-- Source lines 33-42: DrawState to the equivalent rectangle state. -/
def DrawState.as_rect_state : DrawState → rectangle.State
  | DrawState.Normal => rectangle.State.Normal
  | DrawState.Highlighted _ _ => rectangle.State.Highlighted
  | DrawState.Clicked _ _ => rectangle.State.Clicked

/-- Source lines 44-51: State to the equivalent rectangle state. -/
def State.as_rect_state : State → rectangle.State
  | State.Open draw_state => draw_state.as_rect_state
  | State.Closed draw_state => draw_state.as_rect_state

/-- Source lines 56-76: hit-test of the drop-down list.  Closed: the plain
box; Open: the stacked box of height `dim.2 * len`, the row index computed
as `((mouse_pos.2 - pos.2) / total_h) * len` cast to `uint`.  The cast
truncates toward zero; under containment the value is nonnegative, so it is
`Int.toNat` of the floor here. -/
def is_over (pos : Point) (mouse_pos : Point) (dim : Dimensions)
    (state : State) (len : Len) : Option Idx :=
  match state with
  | State.Closed _ =>
    if rectangle.is_over pos mouse_pos dim then some 0 else none
  | State.Open _ =>
    let total_h := dim.2 * (len : ℚ)
    if rectangle.is_over pos mouse_pos (dim.1, total_h) then
      some (((mouse_pos.2 - pos.2) / total_h * (len : ℚ)).floor.toNat)
    else none

/-- Source lines 80-123: the drop-down list transition function, translated
arm by arm. -/
def get_new_state (is_over_idx : Option Idx) (len : Len) (state : State)
    (mouse : Mouse) : State :=
  match state with
  | State.Closed draw_state =>
    match is_over_idx with
    | some _ =>
      match draw_state, mouse.left with
      | DrawState.Normal, ButtonState.Down => State.Closed DrawState.Normal
      | DrawState.Normal, ButtonState.Up =>
        State.Closed (DrawState.Highlighted 0 len)
      | DrawState.Highlighted _ _, ButtonState.Up =>
        State.Closed (DrawState.Highlighted 0 len)
      | DrawState.Highlighted _ _, ButtonState.Down =>
        State.Closed (DrawState.Clicked 0 len)
      | DrawState.Clicked _ _, ButtonState.Down =>
        State.Closed (DrawState.Clicked 0 len)
      | DrawState.Clicked _ _, ButtonState.Up => State.Open DrawState.Normal
    | none => State.Closed DrawState.Normal
  | State.Open draw_state =>
    match is_over_idx with
    | some idx =>
      match draw_state, mouse.left with
      | DrawState.Normal, ButtonState.Down => State.Open DrawState.Normal
      | DrawState.Normal, ButtonState.Up =>
        State.Open (DrawState.Highlighted idx len)
      | DrawState.Highlighted _ _, ButtonState.Up =>
        State.Open (DrawState.Highlighted idx len)
      | DrawState.Highlighted _ _, ButtonState.Down =>
        State.Open (DrawState.Clicked idx len)
      | DrawState.Clicked p_idx _, ButtonState.Down =>
        State.Open (DrawState.Clicked p_idx len)
      | DrawState.Clicked _ _, ButtonState.Up => State.Closed DrawState.Normal
    | none =>
      match draw_state, mouse.left with
      | DrawState.Highlighted p_idx _, ButtonState.Up =>
        State.Open (DrawState.Highlighted p_idx len)
      | _, _ => State.Closed DrawState.Normal

end drop_down_list

namespace drop_down_list

open mouse (Mouse ButtonState)

/-- Source lines 194-205 of `DropDownListContext::draw`: the callback runs
exactly when the pair (previous state, new state) matches
`(Open(Clicked(idx, _)), Closed(Normal))`; it then receives `idx`. -/
def callback_event (state : State) (new_state : State) : Option Idx :=
  match state, new_state with
  | State.Open (DrawState.Clicked idx _), State.Closed DrawState.Normal => some idx
  | _, _ => none

/-- One frame of `DropDownListContext::draw` at the transition-engine level:
input is the hit-test outcome and the left button; output is the new stored
state and the callback invocation, if any, carrying the pressed row's index
and that row's label `strings[idx]` (source line 199; `none` as the label
marks an out-of-bounds index). -/
def drop_step (strings : List String) (hit : Option Idx) (left : ButtonState)
    (st : State) : State × Option (Idx × Option String) :=
  let new_state := get_new_state hit strings.length st
    (Mouse.mk ((0 : ℚ), (0 : ℚ)) left)
  (new_state,
    match callback_event st new_state with
    | some idx => some (idx, strings[idx]?)
    | none => none)

/-- Run consecutive frames; returns the per-frame callback events and the
final stored state. -/
def drop_run (strings : List String) (st : State) :
    List (Option Idx × ButtonState) → List (Option (Idx × Option String)) × State
  | [] => ([], st)
  | (hit, b) :: rest =>
    let s := drop_step strings hit b st
    let r := drop_run strings s.1 rest
    (s.2 :: r.1, r.2)

/-- The frame inputs of spec §8's selection scenario: hover the closed box,
press it, release it (the list opens), hover row k, press row k, release. -/
def select_frames (k : Idx) : List (Option Idx × ButtonState) :=
  [(some 0, ButtonState.Up), (some 0, ButtonState.Down), (some 0, ButtonState.Up),
   (some k, ButtonState.Up), (some k, ButtonState.Down), (some k, ButtonState.Up)]

/-- Source lines 184-187 of `DropDownListContext::draw`: the externally
recorded selection is used only when it is in range of the current list. -/
def sel_guard (selected : Option Idx) (len : Len) : Option Idx :=
  match selected with
  | some idx => if idx < len then some idx else none
  | none => none

/-- Source lines 217-223 of `DropDownListContext::draw`: the label drawn on
the collapsed box — the selected row's text, else the explicit label, else
the first item.  `none` marks an out-of-bounds vector index (a panic in the
source). -/
def closed_text (strings : List String) (sel : Option Idx)
    (maybe_label : Option String) : Option String :=
  match sel with
  | some idx => strings[idx]?
  | none =>
    match maybe_label with
    | some text => some text
    | none => strings[0]?

/-- Source lines 233-263 of `DropDownListContext::draw`: the visual state of
row `i` of the open list — the externally selected row draws Clicked, else
the row named by the current DrawState draws its style, else Normal. -/
def open_row_rect_state (sel : Option Idx) (draw_state : DrawState)
    (i : Nat) : rectangle.State :=
  match sel with
  | none =>
    match draw_state with
    | DrawState.Normal => rectangle.State.Normal
    | DrawState.Highlighted idx _ =>
      if i = idx then rectangle.State.Highlighted else rectangle.State.Normal
    | DrawState.Clicked idx _ =>
      if i = idx then rectangle.State.Clicked else rectangle.State.Normal
  | some sel_idx =>
    if sel_idx = i then rectangle.State.Clicked
    else
      match draw_state with
      | DrawState.Normal => rectangle.State.Normal
      | DrawState.Highlighted idx _ =>
        if i = idx then rectangle.State.Highlighted else rectangle.State.Normal
      | DrawState.Clicked idx _ =>
        if i = idx then rectangle.State.Clicked else rectangle.State.Normal

end drop_down_list

namespace ui_context

/-- Widget identity, source `ui_context::UIID` (a `uint`). -/
abbrev UIID : Type := Nat

/-- Modelled from the spec: one WidgetStateStore entry (§3) — the widget's
current variant state plus the last drawn geometry; the geometry is absent
until the first `set`.  The `widget_fns!` macro and the UiContext store are
not under src/. -/
structure StoreEntry (α : Type) where
  state : α
  geom : Option (Point × Dimensions)

/-- Modelled from the spec: the identity-indexed store (§4.5), an
associative container keyed by UIID; the most recent binding of an identity
is the current one. -/
abbrev Store (α : Type) : Type := List (UIID × StoreEntry α)

/-- Look an identity up in the store. -/
def store_find {α : Type} (ui_id : UIID) : Store α → Option (StoreEntry α)
  | [] => none
  | (k, e) :: rest => if k = ui_id then some e else store_find ui_id rest

/-- Modelled from the spec: `get(identity) -> State` (§4.5) — returns the
kind's default initial state if the identity is unseen, creating the entry
lazily on first reference (§3).  The default is the third argument of the
source's `widget_fns!` invocation. -/
def get_state {α : Type} (default_state : α) (store : Store α) (ui_id : UIID) :
    α × Store α :=
  match store_find ui_id store with
  | some e => (e.state, store)
  | none => (default_state, (ui_id, StoreEntry.mk default_state none) :: store)

/-- Modelled from the spec: `set(identity, newState, geometry)` (§4.5) —
updates the identity's entry in place (here: binds it in front, shadowing
any older binding). -/
def set_state {α : Type} (store : Store α) (ui_id : UIID) (new_state : α)
    (pos : Point) (dim : Dimensions) : Store α :=
  (ui_id, StoreEntry.mk new_state (some (pos, dim))) :: store

end ui_context

namespace button

/-- C4 counterexample: the claim's frame sequence — hover+down, hover+down,
hover+up starting from Normal — never reaches Clicked, because the source's
first table row sends (true, Normal, Down) back to Normal; the callback
fires zero times, not exactly once on the third frame. -/
theorem C4_press_from_normal_counterexample :
    (button_run State.Normal
        [(true, mouse.ButtonState.Down), (true, mouse.ButtonState.Down),
         (true, mouse.ButtonState.Up)]).1 = [false, false, false]
  ∧ (((button_run State.Normal
        [(true, mouse.ButtonState.Down), (true, mouse.ButtonState.Down),
         (true, mouse.ButtonState.Up)]).1.count true) == 1) = false := by
  exact ⟨rfl, rfl⟩

/-- C4 (amended): the button callback fires if and only if isOver is true,
the previous state is Clicked and the new state is Highlighted; and over
four consecutive frames simulating hover+up, hover+down, hover+down,
hover+up, starting from Normal, the callback fires exactly once, on the
fourth frame. -/
theorem C4_callback_iff_and_scenario :
    (∀ (is_over : Bool) (st : State) (pos : Point) (b : mouse.ButtonState),
        callback_fired is_over st
            (get_new_state is_over st (mouse.Mouse.mk pos b)) = true ↔
          is_over = true ∧ st = State.Clicked ∧
            get_new_state is_over st (mouse.Mouse.mk pos b) = State.Highlighted)
  ∧ button_run State.Normal
      [(true, mouse.ButtonState.Up), (true, mouse.ButtonState.Down),
       (true, mouse.ButtonState.Down), (true, mouse.ButtonState.Up)] =
      ([false, false, false, true], State.Highlighted) := by
  constructor
  · intro o st pos b
    cases o <;> cases st <;> cases b <;>
      simp [get_new_state, callback_fired]
  · rfl

/-- C6: a pressed button whose pointer has left the bounds stays Clicked
while the left button is held Down, and the state leaves Clicked only once
the button is released (or, weaker, the pointer is back over the widget). -/
theorem C6_drag_off_keeps_clicked :
    (∀ (pos : Point),
        get_new_state false State.Clicked (mouse.Mouse.mk pos mouse.ButtonState.Down) =
          State.Clicked)
  ∧ (∀ (is_over : Bool) (pos : Point) (b : mouse.ButtonState),
        get_new_state is_over State.Clicked (mouse.Mouse.mk pos b) ≠ State.Clicked →
          b = mouse.ButtonState.Up ∨ is_over = true) := by
  constructor
  · intro pos
    rfl
  · intro o pos b h
    cases b with
    | Up => exact Or.inl rfl
    | Down =>
      cases o with
      | true => exact Or.inr rfl
      | false => exact absurd rfl h

end button

namespace drop_down_list

open mouse (Mouse ButtonState)

/-- The invariant every state returned by the drop-down transition function
keeps: a Closed draw state carries row index 0, and every carried item
count equals the current `len`. -/
def counts_refreshed (len : Len) : State → Prop
  | State.Closed DrawState.Normal => True
  | State.Closed (DrawState.Highlighted i n) => i = 0 ∧ n = len
  | State.Closed (DrawState.Clicked i n) => i = 0 ∧ n = len
  | State.Open DrawState.Normal => True
  | State.Open (DrawState.Highlighted _ n) => n = len
  | State.Open (DrawState.Clicked _ n) => n = len

/-- C2 counterexample: with the list open and row 1 pressed, moving the
pointer off the list while the left button is still Down also reaches
Closed(Normal), and the callback fires there — so firing is not the same
as releasing the mouse button over a row. -/
theorem C2_fires_without_release_counterexample :
    get_new_state none 3 (State.Open (DrawState.Clicked 1 3))
        (Mouse.mk ((0 : ℚ), (0 : ℚ)) ButtonState.Down) =
      State.Closed DrawState.Normal
  ∧ callback_event (State.Open (DrawState.Clicked 1 3))
        (State.Closed DrawState.Normal) = some 1 := by
  exact ⟨rfl, rfl⟩

/-- C2 (amended): the drop-down callback fires exactly on the transition
edge Open(Clicked(idx,_)) → Closed(Normal) and on no other (previous, new)
state pair; in terms of the inputs, it fires exactly when the list was open
with row idx pressed and either the button is released or the pointer is
over no row of the list.  When it fires it receives idx and that row's
label; opening then pressing row k (k in range) then releasing over it
fires exactly once, with index k and the k-th label, and returns the state
to Closed(Normal). -/
theorem C2_callback_edge_and_scenario :
    (∀ (prev new_state : State) (idx : Idx),
        callback_event prev new_state = some idx ↔
          (∃ n, prev = State.Open (DrawState.Clicked idx n)) ∧
            new_state = State.Closed DrawState.Normal)
  ∧ (∀ (hit : Option Idx) (len : Len) (prev : State) (pos : Point)
        (b : ButtonState) (idx : Idx),
        callback_event prev (get_new_state hit len prev (Mouse.mk pos b)) = some idx ↔
          (∃ n, prev = State.Open (DrawState.Clicked idx n)) ∧
            (b = ButtonState.Up ∨ hit = none))
  ∧ (∀ (strings : List String) (k : Nat) (h : k < strings.length),
        drop_run strings (State.Closed DrawState.Normal) (select_frames k) =
          ([none, none, none, none, none, some (k, some strings[k])],
            State.Closed DrawState.Normal)) := by
  refine ⟨?_, ?_, ?_⟩
  · intro prev new_state idx
    rcases prev with ds | ds <;> rcases ds with _ | ⟨i, n⟩ | ⟨i, n⟩ <;>
      rcases new_state with ds2 | ds2 <;> rcases ds2 with _ | ⟨j, m⟩ | ⟨j, m⟩ <;>
        simp [callback_event]
  · intro hit len prev pos b idx
    rcases prev with ds | ds <;> rcases ds with _ | ⟨i, n⟩ | ⟨i, n⟩ <;>
      rcases hit with _ | j <;> cases b <;>
        simp [get_new_state, callback_event]
  · intro strings k h
    have hk : strings[k]? = some strings[k] := List.getElem?_eq_getElem h
    calc drop_run strings (State.Closed DrawState.Normal) (select_frames k)
        = ([none, none, none, none, none, some (k, strings[k]?)],
            State.Closed DrawState.Normal) := rfl
      _ = ([none, none, none, none, none, some (k, some strings[k])],
            State.Closed DrawState.Normal) := by rw [hk]

/-- C3: with itemCount = 0 the code still hits — in the Closed state the
hit-test ignores the item count and returns row 0 for a pointer inside the
collapsed box, and from Closed(Clicked) with the button released over the
box the transition function opens the list.  Only the Open-state hit-test
is degenerate (stacked height 0, never hit). -/
theorem C3_empty_list_still_hits_and_opens :
    is_over ((0 : ℚ), (0 : ℚ)) ((10 : ℚ), (10 : ℚ)) ((128 : ℚ), (32 : ℚ))
        (State.Closed DrawState.Normal) 0 = some 0
  ∧ get_new_state (some 0) 0 (State.Closed (DrawState.Clicked 0 0))
        (Mouse.mk ((10 : ℚ), (10 : ℚ)) ButtonState.Up) =
      State.Open DrawState.Normal
  ∧ is_over ((0 : ℚ), (0 : ℚ)) ((10 : ℚ), (10 : ℚ)) ((128 : ℚ), (32 : ℚ))
        (State.Open DrawState.Normal) 0 = none := by
  refine ⟨?_, rfl, ?_⟩ <;> norm_num [is_over, rectangle.is_over]

/-- C5: sticky row — when the list is open, a row is under the pointer, the
previous draw state is Clicked(prevRow, _) and the left button is Down, the
new state is Open(Clicked(prevRow, count)): the clicked row stays the row
where the press began, whatever row is currently under the pointer. -/
theorem C5_sticky_row :
    ∀ (row p_idx n : Nat) (len : Len) (pos : Point),
      get_new_state (some row) len (State.Open (DrawState.Clicked p_idx n))
          (Mouse.mk pos ButtonState.Down) =
        State.Open (DrawState.Clicked p_idx len) := by
  intro row p_idx n len pos
  rfl

/-- C7: when the list is open and the pointer hits no row, a previous
Highlighted(row,_) draw state with the button Up stays
Open(Highlighted(row, count)); every other (draw state, button)
combination collapses to Closed(Normal). -/
theorem C7_open_miss_transitions :
    (∀ (row n : Nat) (len : Len) (pos : Point),
        get_new_state none len (State.Open (DrawState.Highlighted row n))
            (Mouse.mk pos ButtonState.Up) =
          State.Open (DrawState.Highlighted row len))
  ∧ (∀ (ds : DrawState) (len : Len) (pos : Point) (b : ButtonState),
        (¬ ∃ row n, ds = DrawState.Highlighted row n ∧ b = ButtonState.Up) →
          get_new_state none len (State.Open ds) (Mouse.mk pos b) =
            State.Closed DrawState.Normal) := by
  constructor
  · intro row n len pos
    rfl
  · intro ds len pos b hne
    rcases ds with _ | ⟨i, n⟩ | ⟨i, n⟩ <;> cases b <;>
      first
        | rfl
        | exact absurd ⟨i, n, rfl, rfl⟩ hne

/-- C8: evaluation at the failing input — with an empty item list, any
recorded selection is out of range, the guard falls back to the
no-selection path, and the collapsed rendering then indexes the first item
of the empty list out of bounds (`none` marks the panicking access).  The
in-range half behaves as claimed: a guarded in-range selection renders its
row Clicked even while another row is highlighted. -/
theorem C8_selection_fallback_eval :
    sel_guard (some 0) 0 = none
  ∧ closed_text [] (sel_guard (some 0) 0) none = none
  ∧ open_row_rect_state (sel_guard (some 1) 3) (DrawState.Highlighted 0 3) 1 =
      rectangle.State.Clicked := by
  exact ⟨rfl, rfl, rfl⟩

/-- C10: every state the drop-down transition function returns refreshes
the carried item count to the current `len`, and a Closed state never
carries a nonzero row index. -/
theorem C10_result_counts_refreshed :
    ∀ (hit : Option Idx) (len : Len) (st : State) (pos : Point) (b : ButtonState),
      counts_refreshed len (get_new_state hit len st (Mouse.mk pos b)) := by
  intro hit len st pos b
  rcases st with ds | ds <;> rcases ds with _ | ⟨i, n⟩ | ⟨i, n⟩ <;>
    rcases hit with _ | j <;> cases b <;>
      simp [get_new_state, counts_refreshed]

end drop_down_list

namespace ui_context

/-- C9: reading the store is idempotent — two gets of the same identity
with no set in between return the same value and the second sees the entry
the first created lazily — and a get on an identity never seen before
returns the widget kind's default initial state: Normal for the button,
Closed(Normal) for the drop-down list. -/
theorem C9_store_get_idempotent_and_defaults :
    (∀ (α : Type) (d : α) (store : Store α) (ui_id : UIID),
        (get_state d store ui_id).1 =
          (get_state d (get_state d store ui_id).2 ui_id).1)
  ∧ (∀ (store : Store button.State) (ui_id : UIID),
        store_find ui_id store = none →
          (get_state button.State.Normal store ui_id).1 = button.State.Normal)
  ∧ (∀ (store : Store drop_down_list.State) (ui_id : UIID),
        store_find ui_id store = none →
          (get_state (drop_down_list.State.Closed drop_down_list.DrawState.Normal)
              store ui_id).1 =
            drop_down_list.State.Closed drop_down_list.DrawState.Normal) := by
  refine ⟨?_, ?_, ?_⟩
  · intro α d store ui_id
    cases h : store_find ui_id store with
    | some e => simp [get_state, h]
    | none => simp [get_state, h, store_find]
  · intro store ui_id h
    simp [get_state, h]
  · intro store ui_id h
    simp [get_state, h]

end ui_context

namespace button

/-- C4 witness: at isOver = true, previous Clicked, button Up the transition
yields Highlighted and the callback fires. -/
theorem C4_callback_witness :
    callback_fired true State.Clicked
      (get_new_state true State.Clicked
        (mouse.Mouse.mk ((0 : ℚ), (0 : ℚ)) mouse.ButtonState.Up)) = true :=
  (C4_callback_iff_and_scenario.1 true State.Clicked ((0 : ℚ), (0 : ℚ))
      mouse.ButtonState.Up).mpr ⟨rfl, rfl, rfl⟩

/-- C6 witness: leaving Clicked at isOver = false happened with the button
Up. -/
theorem C6_drag_off_witness :
    mouse.ButtonState.Up = mouse.ButtonState.Up ∨ false = true :=
  C6_drag_off_keeps_clicked.2 false ((0 : ℚ), (0 : ℚ)) mouse.ButtonState.Up
    (by decide)

end button

namespace drop_down_list

open mouse (Mouse ButtonState)

/-- C2 witness: the selection scenario on a concrete three-item list, row 1:
the callback fires exactly once, with index 1 and the second label. -/
theorem C2_scenario_witness :
    drop_run ["alpha", "beta", "gamma"] (State.Closed DrawState.Normal)
        (select_frames 1) =
      ([none, none, none, none, none, some (1, some "beta")],
        State.Closed DrawState.Normal) :=
  C2_callback_edge_and_scenario.2.2 ["alpha", "beta", "gamma"] 1 (by decide)

/-- C7 witness: at len = 3, a Highlighted(1,5) draw state with button Up
stays open as Highlighted(1,3); a Clicked(1,5) draw state with button Up
collapses to Closed(Normal). -/
theorem C7_open_miss_witness :
    get_new_state none 3 (State.Open (DrawState.Highlighted 1 5))
        (Mouse.mk ((0 : ℚ), (0 : ℚ)) ButtonState.Up) =
      State.Open (DrawState.Highlighted 1 3)
  ∧ get_new_state none 3 (State.Open (DrawState.Clicked 1 5))
        (Mouse.mk ((0 : ℚ), (0 : ℚ)) ButtonState.Up) =
      State.Closed DrawState.Normal :=
  ⟨C7_open_miss_transitions.1 1 5 3 ((0 : ℚ), (0 : ℚ)),
   C7_open_miss_transitions.2 (DrawState.Clicked 1 5) 3 ((0 : ℚ), (0 : ℚ))
     ButtonState.Up (by simp)⟩

end drop_down_list

namespace ui_context

/-- C9 witness: on the empty store, identity 1 reads back each widget
kind's default initial state. -/
theorem C9_store_witness :
    (get_state button.State.Normal ([] : Store button.State) 1).1 =
      button.State.Normal
  ∧ (get_state (drop_down_list.State.Closed drop_down_list.DrawState.Normal)
        ([] : Store drop_down_list.State) 1).1 =
      drop_down_list.State.Closed drop_down_list.DrawState.Normal :=
  ⟨C9_store_get_idempotent_and_defaults.2.1 [] 1 rfl,
   C9_store_get_idempotent_and_defaults.2.2 [] 1 rfl⟩

end ui_context
